import Mathlib

/-!
Verification of the two-zone cold-plate thermal model
(`coldplate_thermal_analysis.py`, `calibrate_h_values.py`).

Modelling conventions:
* Python floats are modelled as rationals.
* `scipy.optimize.fsolve` is external library code.  The source passes it a
  residual function together with an initial guess and uses the returned
  iterate unconditionally; it is therefore modelled as an arbitrary `Solver`
  argument of exactly that type.
* The source mutates no state except in `calibration_residuals`, which
  assigns two attributes of its `params` argument; mutation is modelled by
  explicit state passing (the post-state of the record is returned).
* Divisions of plain Python floats raise `ZeroDivisionError` on a zero
  divisor; divisions of numpy values do not raise.  The `Except` variant of
  the forward model records exactly the raising division sites.
-/

/-- The `ThermalParams` dataclass (coldplate_thermal_analysis.py, lines
17-32).  The two calibration targets default to `None` in the source and are
modelled as `Option`. -/
structure ThermalParams where
  Q_total : ℚ
  mdot : ℚ
  Tin : ℚ
  cp : ℚ
  R_contact : ℚ
  t_plate : ℚ
  k_plate : ℚ
  A_porous : ℚ
  A_outlet : ℚ
  h_porous : ℚ
  h_outlet : ℚ
  Tcpu_target : Option ℚ := none
  Q1_target : Option ℚ := none
deriving DecidableEq

/-- The `ThermalResults` dataclass (lines 34-44).  The three 2-element numpy
arrays are modelled as pairs. -/
structure ThermalResults where
  Tcpu : ℚ
  T_plate : ℚ
  Q : ℚ × ℚ
  Tbulk : ℚ × ℚ
  Twall : ℚ × ℚ
  Tout : ℚ
  Rpaths : ℚ × ℚ
  R_contact : ℚ
deriving DecidableEq

/-- `residuals_2zone` (lines 47-83): residual function for the 2-zone
thermal network solver, state vector `x = (Tcpu, Q1)`. -/
def residuals_2zone (x : ℚ × ℚ) (Qtot mdot cp Tin : ℚ)
    (Rpaths : ℚ × ℚ) (R_contact : ℚ) : ℚ × ℚ :=
  let Tcpu := x.1
  let Q1 := x.2
  let Q2 := Qtot - Q1
  let T_plate := Tcpu - Qtot * R_contact
  let Tb1 := Tin + Q1 / (mdot * cp)
  let Tb2 := Tb1 + Q2 / (mdot * cp)
  let Q1_pred := (T_plate - Tb1) / Rpaths.1
  let Q2_pred := (T_plate - Tb2) / Rpaths.2
  (Q1 - Q1_pred, Q2 - Q2_pred)

/-- Thermal resistances of `coldplate_2zone_model` (lines 114-121):
`Rpaths = (Rcond1 + Rconv1, Rcond2 + Rconv2)`. -/
def Rpaths_of (p : ThermalParams) : ℚ × ℚ :=
  let Rcond1 := p.t_plate / (p.k_plate * p.A_porous)
  let Rcond2 := p.t_plate / (p.k_plate * p.A_outlet)
  let Rconv1 := 1 / (p.h_porous * p.A_porous)
  let Rconv2 := 1 / (p.h_outlet * p.A_outlet)
  (Rcond1 + Rconv1, Rcond2 + Rconv2)

/-- Initial guess of `coldplate_2zone_model` (lines 123-129):
`x0 = (Tcpu0, Q1_0)` with the conductance-weighted heat split.  The numpy
statements `w = 1.0 / Rpaths; w = w / np.sum(w); Q1_0 = w[0] * Qtot` give
`Q1_0 = (1/Rpath1) / (1/Rpath1 + 1/Rpath2) * Qtot`. -/
def initial_guess (p : ThermalParams) : ℚ × ℚ :=
  let Rpaths := Rpaths_of p
  let Tout_guess := p.Tin + p.Q_total / (p.mdot * p.cp)
  let Tcpu0 := Tout_guess + p.Q_total * (p.R_contact + min Rpaths.1 Rpaths.2)
  let w1 := 1 / Rpaths.1
  let w2 := 1 / Rpaths.2
  let Q1_0 := w1 / (w1 + w2) * p.Q_total
  (Tcpu0, Q1_0)

/-- Type of the root-finding routine as the source uses it: `fsolve` receives
the residual function and the initial guess and returns the final iterate
(the source requests no status output, line 132-134). -/
abbrev Solver := ((ℚ × ℚ) → ℚ × ℚ) → (ℚ × ℚ) → ℚ × ℚ

/-- `coldplate_2zone_model` (lines 86-161): build the resistance network and
the initial guess, hand the residual function to the root finder, and
assemble the result record from the returned iterate. -/
def coldplate_2zone_model (fsolve : Solver) (params : ThermalParams) :
    ThermalResults :=
  let Qtot := params.Q_total
  let mdot := params.mdot
  let Tin := params.Tin
  let cp := params.cp
  let R_contact := params.R_contact
  let Rcond1 := params.t_plate / (params.k_plate * params.A_porous)
  let Rcond2 := params.t_plate / (params.k_plate * params.A_outlet)
  let Rpaths := Rpaths_of params
  let x0 := initial_guess params
  let x_sol := fsolve
    (fun x => residuals_2zone x Qtot mdot cp Tin Rpaths R_contact) x0
  let Tcpu := x_sol.1
  let Q1 := x_sol.2
  let Q2 := Qtot - Q1
  let Tb1 := Tin + Q1 / (mdot * cp)
  let Tb2 := Tb1 + Q2 / (mdot * cp)
  let Tout := Tb2
  let T_plate := Tcpu - Qtot * R_contact
  let Tw1 := T_plate - Q1 * Rcond1
  let Tw2 := T_plate - Q2 * Rcond2
  { Tcpu := Tcpu
    T_plate := T_plate
    Q := (Q1, Q2)
    Tbulk := (Tb1, Tb2)
    Twall := (Tw1, Tw2)
    Tout := Tout
    Rpaths := Rpaths
    R_contact := R_contact }

/-- Python exceptions that the modelled code can raise:
`ZeroDivisionError` from a plain-float division by zero, and `TypeError`
from subtracting a `None` calibration target. -/
inductive PyErr where
  | zeroDivisionError
  | typeError
deriving DecidableEq

/-- Division of plain Python floats: raises `ZeroDivisionError` on a zero
divisor, otherwise returns the quotient. -/
def pydiv (a b : ℚ) : Except PyErr ℚ :=
  if b = 0 then Except.error PyErr.zeroDivisionError else Except.ok (a / b)

/-- Exception-aware embedding of `coldplate_2zone_model`.  The five divisions
of plain Python floats (lines 115-118 and 124) raise `ZeroDivisionError` on a
zero divisor; the remaining divisions act on numpy values (lines 126-127 and
141-142 where `Q1` is a numpy scalar), which do not raise and are modelled by
total field division, exactly as in `coldplate_2zone_model`. -/
def coldplate_2zone_modelE (fsolve : Solver) (params : ThermalParams) :
    Except PyErr ThermalResults := do
  let Qtot := params.Q_total
  let mdot := params.mdot
  let Tin := params.Tin
  let cp := params.cp
  let R_contact := params.R_contact
  let Rcond1 ← pydiv params.t_plate (params.k_plate * params.A_porous)
  let Rcond2 ← pydiv params.t_plate (params.k_plate * params.A_outlet)
  let Rconv1 ← pydiv 1 (params.h_porous * params.A_porous)
  let Rconv2 ← pydiv 1 (params.h_outlet * params.A_outlet)
  let Rpath1 := Rcond1 + Rconv1
  let Rpath2 := Rcond2 + Rconv2
  let Rpaths : ℚ × ℚ := (Rpath1, Rpath2)
  let q ← pydiv Qtot (mdot * cp)
  let Tout_guess := Tin + q
  let Tcpu0 := Tout_guess + Qtot * (R_contact + min Rpath1 Rpath2)
  let w1 := 1 / Rpath1
  let w2 := 1 / Rpath2
  let Q1_0 := w1 / (w1 + w2) * Qtot
  let x_sol := fsolve
    (fun x => residuals_2zone x Qtot mdot cp Tin Rpaths R_contact) (Tcpu0, Q1_0)
  let Tcpu := x_sol.1
  let Q1 := x_sol.2
  let Q2 := Qtot - Q1
  let Tb1 := Tin + Q1 / (mdot * cp)
  let Tb2 := Tb1 + Q2 / (mdot * cp)
  let T_plate := Tcpu - Qtot * R_contact
  return { Tcpu := Tcpu
           T_plate := T_plate
           Q := (Q1, Q2)
           Tbulk := (Tb1, Tb2)
           Twall := (T_plate - Q1 * Rcond1, T_plate - Q2 * Rcond2)
           Tout := Tb2
           Rpaths := Rpaths
           R_contact := R_contact }

/-- Whether an exception-aware run returned a result record rather than
raising. -/
def returnsResult {α : Type} : Except PyErr α → Bool
  | Except.ok _ => true
  | Except.error _ => false

/-- State-passing form of the forward solve.  The body of
`coldplate_2zone_model` (lines 86-161) only reads attributes of `params` and
never assigns to them, so the post-state of the record held by the caller is
the record itself. -/
def coldplate_2zone_modelS (fsolve : Solver) (params : ThermalParams) :
    ThermalResults × ThermalParams :=
  (coldplate_2zone_model fsolve params, params)

/-- `calibration_residuals` (coldplate_thermal_analysis.py lines 164-184 and,
with the identical body, calibrate_h_values.py lines 66-89).  The source first
assigns `params.h_porous = h[0]` and `params.h_outlet = h[1]` — mutating the
record held by the caller — then runs the forward model and subtracts the
targets.  Modelled with explicit state passing: the second component is the
post-state of the `params` record.  Subtracting a `None` target raises
`TypeError`; a raising forward solve propagates.  In both cases the mutation
has already happened. -/
def calibration_residuals (fsolve : Solver) (h : ℚ × ℚ)
    (params : ThermalParams) : Except PyErr (ℚ × ℚ) × ThermalParams :=
  let params1 := { params with h_porous := h.1, h_outlet := h.2 }
  let res : Except PyErr (ℚ × ℚ) :=
    match coldplate_2zone_modelE fsolve params1 with
    | Except.error e => Except.error e
    | Except.ok result =>
      match params1.Tcpu_target, params1.Q1_target with
      | some tT, some tQ => Except.ok (result.Tcpu - tT, result.Q.1 - tQ)
      | _, _ => Except.error PyErr.typeError
  (res, params1)

/-- A solver that just returns its initial guess; used as a concrete
instance of the abstract root finder. -/
def idSolver : Solver := fun _ x0 => x0

/-- A solver standing for a failed root-finding run: it returns the iterate
`(0, 0)` whatever the problem, with no claim of convergence. -/
def badSolver : Solver := fun _ _ => (0, 0)

/-- All-ones scenario with positive fields (unit resistances). -/
def p_unit : ThermalParams :=
  { Q_total := 2, mdot := 1, Tin := 0, cp := 1, R_contact := 0, t_plate := 1,
    k_plate := 1, A_porous := 1, A_outlet := 1, h_porous := 1, h_outlet := 1 }

/-- Scenario with a negative porous area and every float divisor nonzero. -/
def p_negA : ThermalParams :=
  { Q_total := 1, mdot := 1, Tin := 0, cp := 1, R_contact := 0, t_plate := 1,
    k_plate := 1, A_porous := -1, A_outlet := 2, h_porous := 1, h_outlet := 1 }

/-- Scenario with a zero porous area. -/
def p_zeroA : ThermalParams :=
  { Q_total := 2, mdot := 1, Tin := 0, cp := 1, R_contact := 0, t_plate := 1,
    k_plate := 1, A_porous := 0, A_outlet := 1, h_porous := 1, h_outlet := 1 }

/-- Calibration scenario with both targets present. -/
def p_cal : ThermalParams :=
  { Q_total := 2, mdot := 1, Tin := 0, cp := 1, R_contact := 0, t_plate := 1,
    k_plate := 1, A_porous := 1, A_outlet := 1, h_porous := 5, h_outlet := 5,
    Tcpu_target := some 3, Q1_target := some 1 }

/-- Scenario with equal path resistances: both zones have area 2, unit
conductivity and unit coefficient, hence `Rpath1 = Rpath2 = 1`. -/
def p_sym : ThermalParams :=
  { Q_total := 3, mdot := 1, Tin := 0, cp := 1, R_contact := 0, t_plate := 1,
    k_plate := 1, A_porous := 2, A_outlet := 2, h_porous := 1, h_outlet := 1 }

/-- The exact root of the residual system of `p_sym` is `(Tcpu, Q1) = (4, 2)`;
this solver returns it. -/
def exactSolverSym : Solver := fun _ _ => (4, 2)

/-- Bridge: whenever none of the five plain-float divisors is zero, the
exception-aware forward solve raises nothing and returns exactly the record
computed by `coldplate_2zone_model`. -/
theorem modelE_eq_ok_of_nonzero (fsolve : Solver) (p : ThermalParams)
    (h1 : p.k_plate * p.A_porous ≠ 0) (h2 : p.k_plate * p.A_outlet ≠ 0)
    (h3 : p.h_porous * p.A_porous ≠ 0) (h4 : p.h_outlet * p.A_outlet ≠ 0)
    (h5 : p.mdot * p.cp ≠ 0) :
    coldplate_2zone_modelE fsolve p =
      Except.ok (coldplate_2zone_model fsolve p) := by
  simp only [coldplate_2zone_modelE, pydiv, if_neg h1, if_neg h2, if_neg h3,
    if_neg h4, if_neg h5]
  rfl

/-- Claim C1: for every state vector and every parameter set, the residual
vector computed by `residuals_2zone` equals
`(Q1 - (Tplate - Tb1)/Rpath1, Q2 - (Tplate - Tb2)/Rpath2)` where
`Q2 = Qtot - Q1`, `Tplate = Tcpu - Qtot*Rcontact`,
`Tb1 = Tin + Q1/(mdot*cp)` and `Tb2 = Tb1 + Q2/(mdot*cp)`. -/
theorem C1_residuals_match_spec (x : ℚ × ℚ) (Qtot mdot cp Tin : ℚ)
    (Rpaths : ℚ × ℚ) (R_contact : ℚ) :
    residuals_2zone x Qtot mdot cp Tin Rpaths R_contact =
      (x.2 - ((x.1 - Qtot * R_contact) - (Tin + x.2 / (mdot * cp))) / Rpaths.1,
       (Qtot - x.2) -
         ((x.1 - Qtot * R_contact) -
           ((Tin + x.2 / (mdot * cp)) + (Qtot - x.2) / (mdot * cp))) /
             Rpaths.2) := rfl

/-- Claim C2: the two components of the returned heat split sum exactly to
the total heat load (the source sets `Q2 = Qtot - Q1`), for every scenario
and every outcome of the root finder — in particular for every converged
one; exact equality implies the 1e-6 relative tolerance of the claim. -/
theorem C2_heat_split_conservation (fsolve : Solver) (p : ThermalParams) :
    (coldplate_2zone_model fsolve p).Q.1 +
      (coldplate_2zone_model fsolve p).Q.2 = p.Q_total := by
  simp [coldplate_2zone_model]

/-- Claim C3: for all positive inputs, the path resistances produced by the
forward model are, per zone, conduction `t/(k*A_i)` plus convection
`1/(h_i*A_i)`. -/
theorem C3_resistance_network (fsolve : Solver) (p : ThermalParams)
    (hA1 : 0 < p.A_porous) (hA2 : 0 < p.A_outlet) (hh1 : 0 < p.h_porous)
    (hh2 : 0 < p.h_outlet) (hk : 0 < p.k_plate) (ht : 0 < p.t_plate) :
    (coldplate_2zone_model fsolve p).Rpaths =
      (p.t_plate / (p.k_plate * p.A_porous) + 1 / (p.h_porous * p.A_porous),
       p.t_plate / (p.k_plate * p.A_outlet) + 1 / (p.h_outlet * p.A_outlet)) :=
  rfl

/-- Witness for C3 at the all-ones scenario. -/
theorem C3_resistance_network_witness :
    (coldplate_2zone_model idSolver p_unit).Rpaths =
      (p_unit.t_plate / (p_unit.k_plate * p_unit.A_porous) +
         1 / (p_unit.h_porous * p_unit.A_porous),
       p_unit.t_plate / (p_unit.k_plate * p_unit.A_outlet) +
         1 / (p_unit.h_outlet * p_unit.A_outlet)) :=
  C3_resistance_network idSolver p_unit (by norm_num [p_unit])
    (by norm_num [p_unit]) (by norm_num [p_unit]) (by norm_num [p_unit])
    (by norm_num [p_unit]) (by norm_num [p_unit])

/-- Claim C4 counterexample: the claim says a non-positive area makes the
forward solve return `InvalidGeometryError` rather than a solution, but the
source validates nothing: at a scenario with negative porous area the solve
raises no error and returns a result record. -/
theorem C4_counterexample :
    p_negA.A_porous ≤ 0 ∧
      returnsResult (coldplate_2zone_modelE idSolver p_negA) = true := by
  refine ⟨by norm_num [p_negA], ?_⟩
  rw [modelE_eq_ok_of_nonzero idSolver p_negA (by norm_num [p_negA])
    (by norm_num [p_negA]) (by norm_num [p_negA]) (by norm_num [p_negA])
    (by norm_num [p_negA])]
  rfl

/-- Claim C4 amended: the code performs no domain validation.  A zero divisor
(for instance a zero area) raises `ZeroDivisionError` — there is no
`InvalidGeometryError` or `InvalidCoefficientError` — and whenever all five
plain-float divisors are nonzero the solve returns a result record,
regardless of the signs of areas and coefficients. -/
theorem C4_amended_no_validation (fsolve : Solver) (p : ThermalParams) :
    (p.k_plate * p.A_porous = 0 →
        coldplate_2zone_modelE fsolve p =
          Except.error PyErr.zeroDivisionError) ∧
    (p.k_plate * p.A_porous ≠ 0 → p.k_plate * p.A_outlet ≠ 0 →
      p.h_porous * p.A_porous ≠ 0 → p.h_outlet * p.A_outlet ≠ 0 →
      p.mdot * p.cp ≠ 0 →
        coldplate_2zone_modelE fsolve p =
          Except.ok (coldplate_2zone_model fsolve p)) := by
  constructor
  · intro h
    simp only [coldplate_2zone_modelE, pydiv, if_pos h]
    rfl
  · intro h1 h2 h3 h4 h5
    exact modelE_eq_ok_of_nonzero fsolve p h1 h2 h3 h4 h5

/-- Witness for the amended C4: a zero porous area raises
`ZeroDivisionError`, and the negative-area scenario returns a result. -/
theorem C4_amended_no_validation_witness :
    coldplate_2zone_modelE idSolver p_zeroA =
        Except.error PyErr.zeroDivisionError ∧
      coldplate_2zone_modelE idSolver p_negA =
        Except.ok (coldplate_2zone_model idSolver p_negA) :=
  ⟨(C4_amended_no_validation idSolver p_zeroA).1 (by norm_num [p_zeroA]),
   (C4_amended_no_validation idSolver p_negA).2 (by norm_num [p_negA])
     (by norm_num [p_negA]) (by norm_num [p_negA]) (by norm_num [p_negA])
     (by norm_num [p_negA])⟩

/-- Claim C5 counterexample: the claim says a root-finder run that fails its
tolerance makes the forward solve return `NonConvergenceError`, but the
source never inspects convergence: with a solver that returns the iterate
`(0, 0)` — whose residual is far from zero — the solve still returns a
result record built from that iterate. -/
theorem C5_counterexample :
    residuals_2zone (0, 0) p_unit.Q_total p_unit.mdot p_unit.cp p_unit.Tin
        (Rpaths_of p_unit) p_unit.R_contact ≠ (0, 0) ∧
      returnsResult (coldplate_2zone_modelE badSolver p_unit) = true := by
  refine ⟨?_, ?_⟩
  · norm_num [residuals_2zone, Rpaths_of, p_unit, Prod.ext_iff]
  · rw [modelE_eq_ok_of_nonzero badSolver p_unit (by norm_num [p_unit])
      (by norm_num [p_unit]) (by norm_num [p_unit]) (by norm_num [p_unit])
      (by norm_num [p_unit])]
    rfl

/-- Claim C5 amended: the source calls `fsolve` without requesting its status
output (line 132-134) and unconditionally assembles the result from whatever
iterate comes back: for every solver outcome, if no plain-float divisor is
zero the forward solve returns a result record; non-convergence is never
surfaced as an error. -/
theorem C5_amended_silent_nonconvergence (fsolve : Solver) (p : ThermalParams)
    (h1 : p.k_plate * p.A_porous ≠ 0) (h2 : p.k_plate * p.A_outlet ≠ 0)
    (h3 : p.h_porous * p.A_porous ≠ 0) (h4 : p.h_outlet * p.A_outlet ≠ 0)
    (h5 : p.mdot * p.cp ≠ 0) :
    coldplate_2zone_modelE fsolve p =
      Except.ok (coldplate_2zone_model fsolve p) :=
  modelE_eq_ok_of_nonzero fsolve p h1 h2 h3 h4 h5

/-- Witness for the amended C5 at the failed solver and the all-ones
scenario. -/
theorem C5_amended_silent_nonconvergence_witness :
    coldplate_2zone_modelE badSolver p_unit =
      Except.ok (coldplate_2zone_model badSolver p_unit) :=
  C5_amended_silent_nonconvergence badSolver p_unit (by norm_num [p_unit])
    (by norm_num [p_unit]) (by norm_num [p_unit]) (by norm_num [p_unit])
    (by norm_num [p_unit])

/-- Claim C6: for every scenario the initial guess is
`Tcpu0 = (Tin + Qtot/(mdot*cp)) + Qtot*(Rcontact + min(Rpath1, Rpath2))` and
`Q1_0 = w1*Qtot` with conductance weights `w_i = (1/Rpath_i)/(sum of
1/Rpath_j)`. -/
theorem C6_initial_guess_policy (p : ThermalParams) :
    initial_guess p =
      (p.Tin + p.Q_total / (p.mdot * p.cp) +
         p.Q_total * (p.R_contact + min (Rpaths_of p).1 (Rpaths_of p).2),
       (1 / (Rpaths_of p).1) /
           (1 / (Rpaths_of p).1 + 1 / (Rpaths_of p).2) * p.Q_total) := rfl

/-- Claim C7: state assembly is pure derivation from the two unknowns: the
outlet temperature equals the second bulk temperature, and each zone wall
temperature is `Tplate - Q_i*Rcond_i` with the conduction resistance only;
this holds for every scenario and every solver outcome, in particular for
every converged solve. -/
theorem C7_state_assembly (fsolve : Solver) (p : ThermalParams) :
    (coldplate_2zone_model fsolve p).Tout =
        (coldplate_2zone_model fsolve p).Tbulk.2 ∧
      (coldplate_2zone_model fsolve p).Twall.1 =
        (coldplate_2zone_model fsolve p).T_plate -
          (coldplate_2zone_model fsolve p).Q.1 *
            (p.t_plate / (p.k_plate * p.A_porous)) ∧
      (coldplate_2zone_model fsolve p).Twall.2 =
        (coldplate_2zone_model fsolve p).T_plate -
          (coldplate_2zone_model fsolve p).Q.2 *
            (p.t_plate / (p.k_plate * p.A_outlet)) :=
  ⟨rfl, rfl, rfl⟩

/-- Claim C8 counterexample: the claim says the record held by the caller has
the same field values after a calibration-residual evaluation as before it,
but the source assigns `params.h_porous = h[0]` and `params.h_outlet = h[1]`:
at a concrete scenario with `h_porous = 5`, evaluating at `h = (7, 9)` leaves
the record changed. -/
theorem C8_counterexample :
    (calibration_residuals idSolver (7, 9) p_cal).2 ≠ p_cal := by
  norm_num [calibration_residuals, p_cal, ThermalParams.mk.injEq]

/-- Claim C8 amended: `calibration_residuals` mutates the shared record: after
every evaluation the post-state of the callers `ThermalParams` holds the
supplied coefficients in `h_porous` and `h_outlet`, all other fields
unchanged. -/
theorem C8_amended_mutates_h (fsolve : Solver) (h : ℚ × ℚ)
    (p : ThermalParams) :
    (calibration_residuals fsolve h p).2 =
      { p with h_porous := h.1, h_outlet := h.2 } := rfl

/-- Claim C9 counterexample: the claim says equal path resistances force the
even split `Q1 = Q2 = Qtot/2`, but serial fluid heating breaks the symmetry:
`p_sym` is a valid scenario with `Rpath1 = Rpath2 = 1` on which the residual
vanishes exactly at the iterate `(Tcpu, Q1) = (4, 2)`, and the converged
solve returns the uneven split `Q1 = 2 ≠ 3/2 = Qtot/2`. -/
theorem C9_counterexample :
    (Rpaths_of p_sym).1 = (Rpaths_of p_sym).2 ∧
      residuals_2zone (4, 2) p_sym.Q_total p_sym.mdot p_sym.cp p_sym.Tin
          (Rpaths_of p_sym) p_sym.R_contact = (0, 0) ∧
      (coldplate_2zone_model exactSolverSym p_sym).Q.1 ≠
        p_sym.Q_total / 2 := by
  refine ⟨?_, ?_, ?_⟩
  · norm_num [Rpaths_of, p_sym]
  · norm_num [residuals_2zone, Rpaths_of, p_sym, Prod.ext_iff]
  · norm_num [coldplate_2zone_model, exactSolverSym, p_sym]

/-- Claim C9 amended: with equal path resistances `R`, every exact root of
the residual system satisfies `(Q1 - Q2)*(mdot*cp*R) = Q2` with
`Q2 = Qtot - Q1`: the downstream path sees hotter fluid and carries less
heat, so the split is uneven whenever `Q2` is nonzero; the claimed even split
holds only for `Qtot = 0`. -/
theorem C9_amended_uneven_split (Qtot mdot cp Tin R R_contact Tcpu Q1 : ℚ)
    (hmc : mdot * cp ≠ 0) (hR : R ≠ 0)
    (hroot : residuals_2zone (Tcpu, Q1) Qtot mdot cp Tin (R, R) R_contact =
      (0, 0)) :
    (Q1 - (Qtot - Q1)) * (mdot * cp * R) = Qtot - Q1 := by
  simp only [residuals_2zone, Prod.mk.injEq] at hroot
  obtain ⟨e1, e2⟩ := hroot
  field_simp at e1 e2
  linear_combination e1 - e2

/-- Witness for the amended C9 at the root `(4, 2)` of the symmetric
scenario with `Qtot = 3` and unit resistances. -/
theorem C9_amended_uneven_split_witness :
    ((2 : ℚ) - (3 - 2)) * (1 * 1 * 1) = 3 - 2 :=
  C9_amended_uneven_split 3 1 1 0 1 0 4 2 (by norm_num) (by norm_num)
    (by norm_num [residuals_2zone, Prod.ext_iff])

/-- Claim C10: the forward solve never mutates its input: the post-state of
the `ThermalParams` record equals the record passed in, for every scenario
and every solver (the source of `coldplate_2zone_model` only reads the
record). -/
theorem C10_forward_solve_pure (fsolve : Solver) (p : ThermalParams) :
    (coldplate_2zone_modelS fsolve p).2 = p := rfl
